import Mathlib

/-!
Shallow embedding of the authentication/authorization core of the
fastapi-graphql-api repository (files `app/core/auth_strategies.py`,
`app/data/models/user.py`, `app/services/auth.py`, `app/core/config.py`),
together with theorems settling the specification claims about it.

Conventions of the embedding:
* Time is modelled as `Int` unix seconds; `timedelta(minutes=m)` becomes `m * 60`.
* A JWT is modelled symbolically as its claims payload plus a boolean saying
  whether its signature verifies under the manager's secret/algorithm
  (`sig_ok = false` also covers format-level parse failure).  PyJWT checks the
  signature before the registered claims, so signature failure takes
  precedence over expiry in `decode_token`.
* Python exceptions become `Except` values; each distinct `raise` site (they
  all carry distinct message strings in the source) becomes a distinct
  constructor of an error inductive, with its message recoverable through a
  `message` function.
* The password digest string is modelled by its semantic classification
  `Digest`: a well-formed digest of one of the two configured passlib schemes
  (idealised as remembering the hashed secret), or a malformed string.
  Passlib's documented `CryptContext.verify` contract raises an
  unidentified-hash `ValueError` on a malformed digest; the repository calls
  it without any handler.
* Repository/store lookups are abstract function parameters
  (`String → Option User` etc.), matching the spec's treatment of stores as
  narrow external collaborators.  A strategy call both returns a result and
  persists an updated user record; this is modelled by `AuthOutcome`, whose
  `stored` component is the state of the located user record after the call
  (`none` when no record was located).
-/

/-- A JSON-ish claim value as used in token payloads: string, integer, or
boolean (the shapes the source actually stores in tokens). -/
inductive JVal where
  | str (s : String)
  | int (n : Int)
  | bool (b : Bool)
deriving DecidableEq, Repr

/-- A Python dict of claims, as an association list with unique keys kept in
insertion order (Python 3 dict semantics). -/
abbrev Claims := List (String × JVal)

/-- Python `d.get(k)`: the value at the first matching key, if any. -/
def dget (m : Claims) (k : String) : Option JVal :=
  (List.find? (fun p => p.1 == k) m).map (fun p => p.2)

/-- Python `d[k] = v` / `d.update(\x7bk: v\x7d)`: overwrite in place when the key
is present, append otherwise (insertion order preserved). -/
def dput (m : Claims) (k : String) (v : JVal) : Claims :=
  if (List.find? (fun p => p.1 == k) m).isSome then
    List.map (fun p => if p.1 == k then (k, v) else p) m
  else
    m ++ [(k, v)]

/-- Python truthiness of an optional string: `None` and `""` are falsy; a
truthy value is returned as `some`. -/
def pyStr (o : Option String) : Option String :=
  match o with
  | some s => if s = "" then none else some s
  | none => none

/-- Python `a or b` on optional strings (used for
`credentials.get("username") or credentials.get("email")`). -/
def pyStrOr (a b : Option String) : Option String :=
  match a with
  | some s => if s = "" then b else some s
  | none => b

/-- Python truthiness of a claim value (`if not user_id`). -/
def pyTruthy (v : JVal) : Bool :=
  match v with
  | .str s => s ≠ ""
  | .int n => n ≠ 0
  | .bool b => b

/-- Python `x in ids` where `x` is a possibly-`None` record id and `ids` a
list of strings: `None` is a member of no string list. -/
def pyIdMem (oid : Option String) (ids : List String) : Bool :=
  match oid with
  | some i => ids.contains i
  | none => false

namespace settings

/-- `app/core/config.py` line 13. -/
def ACCESS_TOKEN_EXPIRE_MINUTES : Int := 30

/-- `app/core/config.py` line 14. -/
def REFRESH_TOKEN_EXPIRE_MINUTES : Int := 60 * 24 * 7

end settings

/-- Semantic classification of a password-digest string for the passlib
`CryptContext(schemes=["pbkdf2_sha256", "bcrypt"])` configured in
`PasswordManager.__init__` (`auth_strategies.py` lines 32-39): a well-formed
digest of one of the two supported schemes (idealised as remembering which
secret it hashes), or a string that is not a well-formed digest of any
supported scheme. -/
inductive Digest where
  | pbkdf2_sha256 (secret : String)
  | bcrypt (secret : String)
  | malformed (s : String)
deriving DecidableEq, Repr

/-- The error passlib's `CryptContext.verify` raises when the hash string
cannot be identified as any configured scheme (`passlib.exc.UnknownHashError`,
a `ValueError`; documented contract of `CryptContext.verify`). -/
inductive PasslibError where
  | unknownHash
deriving DecidableEq, Repr

/-- Modelled from passlib's documented `CryptContext.verify` contract for the
context configured in `PasswordManager.__init__`: a well-formed digest of a
supported scheme verifies iff the plaintext matches (idealised collision-free
hashing); an unidentifiable hash string raises `UnknownHashError`. -/
def cryptContextVerify (plain : String) (digest : Digest) : Except PasslibError Bool :=
  match digest with
  | .pbkdf2_sha256 secret => .ok (plain == secret)
  | .bcrypt secret => .ok (plain == secret)
  | .malformed _ => .error .unknownHash

namespace PasswordManager

/-- `PasswordManager.verify_password` (`auth_strategies.py` lines 46-49):
delegates directly to `CryptContext.verify` with no exception handling, so a
passlib error propagates to the caller. -/
def verify_password (plain_password : String) (hashed_password : Digest) :
    Except PasslibError Bool :=
  cryptContextVerify plain_password hashed_password

end PasswordManager

/-- The two `TokenError` raise sites of `TokenManager.decode_token`
(`auth_strategies.py` lines 112-115): expiry (`jwt.ExpiredSignatureError`) and
every other `jwt.PyJWTError` (signature/format failure), with the PyJWT detail
string kept for the latter. -/
inductive TokenErr where
  | expired
  | invalid (detail : String)
deriving DecidableEq, Repr

/-- The message of the `TokenError` raised at each site
(`auth_strategies.py` lines 113 and 115). -/
def TokenErr.message : TokenErr → String
  | .expired => "Token has expired"
  | .invalid d => "Invalid token: " ++ d

/-- A JWT, modelled symbolically: its claims payload plus whether its
signature verifies under the manager's secret and algorithm (`sig_ok = false`
also covers strings that do not parse as a JWT at all). -/
structure Token where
  payload : Claims
  sig_ok : Bool
deriving DecidableEq, Repr

namespace TokenManager

/-- `TokenManager.create_access_token` (`auth_strategies.py` lines 86-93):
copy the claims, overwrite `exp` with now + access TTL and `type` with
`"access"`, and sign with the configured secret. -/
def create_access_token (now : Int) (data : Claims) : Token :=
  { payload :=
      dput (dput data "exp" (.int (now + settings.ACCESS_TOKEN_EXPIRE_MINUTES * 60)))
        "type" (.str "access"),
    sig_ok := true }

/-- `TokenManager.create_refresh_token` (`auth_strategies.py` lines 95-102). -/
def create_refresh_token (now : Int) (data : Claims) : Token :=
  { payload :=
      dput (dput data "exp" (.int (now + settings.REFRESH_TOKEN_EXPIRE_MINUTES * 60)))
        "type" (.str "refresh"),
    sig_ok := true }

/-- `TokenManager.decode_token` (`auth_strategies.py` lines 104-115) over the
symbolic token model, following PyJWT's checking order: signature/format
first (`jwt.InvalidSignatureError`/`jwt.DecodeError`, both `PyJWTError`), then
the `exp` claim when present (`exp <= now` raises `ExpiredSignatureError`; a
non-integer `exp` raises `DecodeError`, i.e. a format failure). -/
def decode_token (now : Int) (t : Token) : Except TokenErr Claims :=
  if t.sig_ok = false then .error (.invalid "Signature verification failed")
  else
    match dget t.payload "exp" with
    | none => .ok t.payload
    | some (JVal.int e) => if e ≤ now then .error .expired else .ok t.payload
    | some _ => .error (.invalid "Expiration Time claim (exp) must be an integer.")

end TokenManager

/-- The `User` model (`app/data/models/user.py` lines 65-113 and the
`BaseDataModel` fields of `app/data/models/base.py`), restricted to the fields
the authentication/authorization core reads or writes. -/
structure User where
  id : Option String
  username : String
  email : String
  hashed_password : Digest
  is_active : Bool
  is_superuser : Bool
  login_attempts : Nat
  failed_login_attempts : Nat
  locked_until : Option Int
  last_login : Option Int
  last_failed_login : Option Int
  updated_at : Option Int
  role_ids : List String
  group_ids : List String
  permission_ids : List String
deriving DecidableEq, Repr

/-- The `Permission` model (`app/data/models/permission.py`), restricted to
the fields the authorization core reads. -/
structure Permission where
  id : Option String
  name : String
  resource : String
  action : String
deriving DecidableEq, Repr

/-- The `Role` model (`app/data/models/role.py`), restricted to the fields
the authorization core reads. -/
structure Role where
  id : Option String
  name : String
  permission_ids : List String
deriving DecidableEq, Repr

namespace User

/-- `User.is_locked` (`user.py` lines 130-135): locked iff a lock-until is set
and now is strictly before it. -/
def is_locked (u : User) (now : Int) : Bool :=
  match u.locked_until with
  | some t => decide (now < t)
  | none => false

/-- `User.lock_account` (`user.py` lines 155-165); the default duration is 30
minutes. -/
def lock_account (now : Int) (duration_minutes : Int) (u : User) : User :=
  { u with locked_until := some (now + duration_minutes * 60), updated_at := some now }

/-- `User.unlock_account` (`user.py` lines 167-171). -/
def unlock_account (now : Int) (u : User) : User :=
  { u with locked_until := none, login_attempts := 0, updated_at := some now }

/-- `User.increment_login_attempts` (`user.py` lines 173-191): increment the
counter, lock (with the default 30 minutes) once it reaches 5, refresh the
update timestamp, and persist `login_attempts`/`locked_until`.  The persisted
record and the in-memory object coincide in this model. -/
def increment_login_attempts (now : Int) (u : User) : User :=
  let u1 := { u with login_attempts := u.login_attempts + 1 }
  let u2 := if u1.login_attempts ≥ 5 then lock_account now 30 u1 else u1
  { u2 with updated_at := some now }

/-- `User.reset_login_attempts` (`user.py` lines 193-203): zero the counter
and unlock. -/
def reset_login_attempts (now : Int) (u : User) : User :=
  unlock_account now { u with login_attempts := 0 }

end User

/-- One constructor per distinct failure raise site of the authentication
core.  All constructors except `validationMissing` (a `ValidationError`) and
`passlibPropagated` (an uncaught passlib `ValueError`) are Python
`AuthenticationError`s. -/
inductive AuthError where
  | missingCredentials
  | invalidCredentials
  | accountLocked
  | emailRequired
  | userNotFound
  | invalidMagicToken
  | invalidTokenType
  | invalidToken
  | userNotFoundOrInactive
  | tokenValidationFailed (e : TokenErr)
  | validationMissing
  | accountInactive
  | accountLockedSvc
  | passlibPropagated (e : PasslibError)
deriving DecidableEq, Repr

/-- The message string of each raise site
(`auth_strategies.py` lines 177, 184/196, 188-190, 256, 260, 267/272, 211,
215, 219, 224; `services/auth.py` lines 83, 407, 411, 88/96). -/
def AuthError.message : AuthError → String
  | .missingCredentials => "Username/email and password are required"
  | .invalidCredentials => "Invalid credentials"
  | .accountLocked => "Account is locked due to too many failed attempts"
  | .emailRequired => "Email is required"
  | .userNotFound => "User not found"
  | .invalidMagicToken => "Invalid magic token"
  | .invalidTokenType => "Invalid token type"
  | .invalidToken => "Invalid token"
  | .userNotFoundOrInactive => "User not found or inactive"
  | .tokenValidationFailed e => "Token validation failed: " ++ e.message
  | .validationMissing => "Both identifier and password are required"
  | .accountInactive => "Account is inactive"
  | .accountLockedSvc => "Account is locked"
  | .passlibPropagated _ => "hash could not be identified"

/-- Whether the raised exception is a Python `AuthenticationError` (rather
than `ValidationError` or an uncaught passlib error). -/
def AuthError.isAuthenticationError : AuthError → Bool
  | .validationMissing => false
  | .passlibPropagated _ => false
  | _ => true

instance {ε α : Type} [DecidableEq ε] [DecidableEq α] : DecidableEq (Except ε α)
  | .ok a, .ok b =>
    if h : a = b then isTrue (by rw [h]) else isFalse (by intro c; cases c; exact h rfl)
  | .ok _, .error _ => isFalse (by intro c; cases c)
  | .error _, .ok _ => isFalse (by intro c; cases c)
  | .error e, .error f =>
    if h : e = f then isTrue (by rw [h]) else isFalse (by intro c; cases c; exact h rfl)

/-- The observable outcome of an authentication call: its returned value or
raised error, and the state of the located user record after the call
(`none` when no record was located; lookups that find no user write
nothing). -/
structure AuthOutcome where
  result : Except AuthError User
  stored : Option User
deriving DecidableEq, Repr

namespace UsernamePasswordAuthStrategy

/-- `UsernamePasswordAuthStrategy.authenticate` (`auth_strategies.py` lines
171-203): extract `username or email` and `password` (Python truthiness),
look the user up by the combined identifier, reject a locked account, verify
the password (incrementing the attempt counter on mismatch, resetting it on
match).  `lookup` is the repository `get_by_email_or_username`. -/
def authenticate (lookup : String → Option User) (now : Int)
    (username email password : Option String) : AuthOutcome :=
  match pyStr (pyStrOr username email), pyStr password with
  | some identifier, some pwd =>
    (match lookup identifier with
     | none => ⟨.error .invalidCredentials, none⟩
     | some user =>
       if user.is_locked now then ⟨.error .accountLocked, some user⟩
       else
         match PasswordManager.verify_password pwd user.hashed_password with
         | .error e => ⟨.error (.passlibPropagated e), some user⟩
         | .ok false =>
           let u := User.increment_login_attempts now user
           ⟨.error .invalidCredentials, some u⟩
         | .ok true =>
           let u := User.reset_login_attempts now user
           ⟨.ok u, some u⟩)
  | _, _ => ⟨.error .missingCredentials, none⟩

/-- `UsernamePasswordAuthStrategy.validate_token` (`auth_strategies.py` lines
205-224): decode (a `TokenError` is caught and re-raised as
`AuthenticationError`), require `type == "access"`, require a truthy `sub`,
load the user by id and require presence and activity.  `getById` is the
repository `get_by_id`, keyed by the raw `sub` claim value. -/
def validate_token (getById : JVal → Option User) (now : Int) (t : Token) :
    Except AuthError User :=
  match TokenManager.decode_token now t with
  | .error e => .error (.tokenValidationFailed e)
  | .ok payload =>
    if dget payload "type" ≠ some (JVal.str "access") then .error .invalidTokenType
    else
      match dget payload "sub" with
      | none => .error .invalidToken
      | some v =>
        if pyTruthy v = false then .error .invalidToken
        else
          match getById v with
          | none => .error .userNotFoundOrInactive
          | some u => if u.is_active then .ok u else .error .userNotFoundOrInactive

end UsernamePasswordAuthStrategy

namespace EmailAuthStrategy

/-- `EmailAuthStrategy.authenticate` (`auth_strategies.py` lines 250-278):
require a truthy email, look the user up by email, and when a magic token is
supplied require it to decode and carry an `email` claim equal to the input
email (`TokenError` and mismatch both surface as "Invalid magic token").
No lock check and no attempt counting happen on this path, so the stored
record is always the located record unchanged.  `getByEmail` is the
repository `get_by_email`; an absent or Python-falsy magic token is `none`. -/
def authenticate (getByEmail : String → Option User) (now : Int)
    (email : Option String) (magic_token : Option Token) : AuthOutcome :=
  match pyStr email with
  | none => ⟨.error .emailRequired, none⟩
  | some em =>
    match getByEmail em with
    | none => ⟨.error .userNotFound, none⟩
    | some user =>
      match magic_token with
      | some tok =>
        (match TokenManager.decode_token now tok with
         | .error _ => ⟨.error .invalidMagicToken, some user⟩
         | .ok payload =>
           if dget payload "email" = some (JVal.str em) then ⟨.ok user, some user⟩
           else ⟨.error .invalidMagicToken, some user⟩)
      | none => ⟨.ok user, some user⟩

end EmailAuthStrategy

namespace AuthorizationService

/-- The inner loop of `AuthorizationService.has_permission`
(`auth_strategies.py` lines 349-352): walk the held role ids in order, look
each role up, skip missing roles, and return true on the first role whose
permission-id set contains the permission's id. -/
def roleLoop (roleById : String → Option Role) (permId : Option String) :
    List String → Bool
  | [] => false
  | rid :: rest =>
    match roleById rid with
    | some role =>
      if pyIdMem permId role.permission_ids then true
      else roleLoop roleById permId rest
    | none => roleLoop roleById permId rest

/-- `AuthorizationService.has_permission` (`auth_strategies.py` lines
341-353): superusers pass unconditionally; otherwise resolve the permission
by name (absent name yields false), then check the direct permission-id set
and the permission-id set of each held role.  `permByName` is the permission
repository `get_by_name`; `roleById` is the role repository `get_by_id`. -/
def has_permission (permByName : String → Option Permission)
    (roleById : String → Option Role) (user : User) (permission_name : String) : Bool :=
  if user.is_superuser then true
  else
    match permByName permission_name with
    | none => false
    | some perm =>
      if pyIdMem perm.id user.permission_ids then true
      else roleLoop roleById perm.id user.role_ids

end AuthorizationService

namespace AuthenticationService

/-- `AuthenticationService.max_login_attempts`: `getattr(settings,
"MAX_LOGIN_ATTEMPTS", 5)` with no such settings field, hence 5
(`services/auth.py` line 61). -/
def max_login_attempts : Nat := 5

/-- `AuthenticationService.lockout_duration_minutes`: `getattr(settings,
"LOCKOUT_DURATION_MINUTES", 30)` with no such settings field, hence 30
(`services/auth.py` lines 62-64). -/
def lockout_duration_minutes : Int := 30

/-- `AuthenticationService._find_user_by_identifier` (`services/auth.py`
lines 378-394): by email first, then by username. -/
def find_user_by_identifier (byEmail byUsername : String → Option User)
    (identifier : String) : Option User :=
  match byEmail identifier with
  | some u => some u
  | none => byUsername identifier

/-- `AuthenticationService._check_account_status` (`services/auth.py` lines
396-411): the error raised, if any — inactive account, else a lock-until in
the future. -/
def check_account_status (now : Int) (u : User) : Option AuthError :=
  if u.is_active = false then some .accountInactive
  else
    match u.locked_until with
    | some t => if now < t then some .accountLockedSvc else none
    | none => none

/-- `AuthenticationService._handle_failed_login` (`services/auth.py` lines
413-438): increment `failed_login_attempts`, set lock-until once the
configured maximum is reached, and persist those fields together with
`last_failed_login` and `updated_at`. -/
def handle_failed_login (now : Int) (max_attempts : Nat)
    (lockout_minutes : Int) (u : User) : User :=
  let u1 := { u with failed_login_attempts := u.failed_login_attempts + 1 }
  let u2 :=
    if u1.failed_login_attempts ≥ max_attempts then
      { u1 with locked_until := some (now + lockout_minutes * 60) }
    else u1
  { u2 with last_failed_login := some now, updated_at := some now }

/-- `AuthenticationService._handle_successful_login` (`services/auth.py`
lines 440-460): zero `failed_login_attempts`, clear lock-until, record
`last_login` and `updated_at`. -/
def handle_successful_login (now : Int) (u : User) : User :=
  { u with failed_login_attempts := 0, locked_until := none,
           last_login := some now, updated_at := some now }

/-- `AuthenticationService.authenticate_user` (`services/auth.py` lines
66-101): validate the inputs, find the user by email-then-username, check
account status, verify the password, and route failure/success through the
service's own counters. -/
def authenticate_user (byEmail byUsername : String → Option User) (now : Int)
    (identifier password : String) : AuthOutcome :=
  if identifier = "" ∨ password = "" then ⟨.error .validationMissing, none⟩
  else
    match find_user_by_identifier byEmail byUsername identifier with
    | none => ⟨.error .invalidCredentials, none⟩
    | some user =>
      match check_account_status now user with
      | some e => ⟨.error e, some user⟩
      | none =>
        match PasswordManager.verify_password password user.hashed_password with
        | .error e => ⟨.error (.passlibPropagated e), some user⟩
        | .ok false =>
          let u := handle_failed_login now max_login_attempts lockout_duration_minutes user
          ⟨.error .invalidCredentials, some u⟩
        | .ok true =>
          let u := handle_successful_login now user
          ⟨.ok u, some u⟩

end AuthenticationService

/-! ## Helper lemmas about the claims-dict model -/

theorem dget_cons (k k' : String) (v' : JVal) (m : Claims) :
    dget ((k', v') :: m) k = if (k' == k) = true then some v' else dget m k := by
  by_cases h : (k' == k) = true
  · simp [dget, List.find?_cons_of_pos, h]
  · simp only [dget, if_neg h]
    rw [List.find?_cons_of_neg]
    simpa using h

theorem dget_append_left (k : String) (v : JVal) (m m2 : Claims)
    (h : dget m k = some v) : dget (m ++ m2) k = some v := by
  induction m with
  | nil => simp [dget] at h
  | cons p rest ih =>
    obtain ⟨k', v'⟩ := p
    rw [List.cons_append, dget_cons]
    rw [dget_cons] at h
    by_cases hk : (k' == k) = true
    · simpa [hk] using h
    · rw [if_neg hk] at h ⊢
      exact ih h

theorem dget_append_right (k : String) (m m2 : Claims)
    (h : dget m k = none) : dget (m ++ m2) k = dget m2 k := by
  induction m with
  | nil => simp
  | cons p rest ih =>
    obtain ⟨k', v'⟩ := p
    rw [List.cons_append, dget_cons]
    rw [dget_cons] at h
    by_cases hk : (k' == k) = true
    · simp [hk] at h
    · rw [if_neg hk] at h ⊢
      exact ih h

theorem dput_of_absent (m : Claims) (k : String) (v : JVal)
    (h : dget m k = none) : dput m k v = m ++ [(k, v)] := by
  have hfind : List.find? (fun p => p.1 == k) m = none := by
    simp only [dget, Option.map_eq_none'] at h
    exact h
  simp [dput, hfind]

/-! ## Sample data used by concrete witnesses and counterexamples -/

/-- A baseline active, unlocked, non-superuser user record. -/
def baseUser : User :=
  { id := some "u0", username := "user0", email := "user0@example.com",
    hashed_password := Digest.pbkdf2_sha256 "pw0",
    is_active := true, is_superuser := false,
    login_attempts := 0, failed_login_attempts := 0,
    locked_until := none, last_login := none, last_failed_login := none,
    updated_at := none, role_ids := [], group_ids := [], permission_ids := [] }

/-- An active user currently locked until t = 1000. -/
def lockedUser : User :=
  { baseUser with id := some "u1", username := "alice", email := "alice@example.com",
                  hashed_password := Digest.pbkdf2_sha256 "secret",
                  login_attempts := 5, locked_until := some 1000 }

/-- An inactive user. -/
def inactiveUser : User :=
  { baseUser with id := some "u2", username := "bob", email := "bob@example.com",
                  is_active := false }

/-- A superuser. -/
def superUser : User :=
  { baseUser with id := some "u3", username := "root", is_superuser := true }


/-! ## C9 — verify on a malformed digest -/

/-- C9 counterexample: the claim says `verify(plaintext, digest)` returns
false rather than raising on a malformed digest; in fact the configured
passlib context raises its unidentified-hash error and
`PasswordManager.verify_password` has no handler, so the call does not return
false — it propagates the error. -/
theorem verify_password_malformed_counterexample :
    PasswordManager.verify_password "password123" (Digest.malformed "not-a-valid-digest") ≠
        Except.ok false
    ∧ PasswordManager.verify_password "password123" (Digest.malformed "not-a-valid-digest") =
        Except.error PasslibError.unknownHash :=
  ⟨by decide, rfl⟩

/-- C9 amended: for every plaintext and every string that is not a
well-formed digest of any supported scheme, `verify_password` raises
passlib's unidentified-hash error (propagated uncaught) rather than
returning false. -/
theorem verify_password_malformed_amended (plain s : String) :
    PasswordManager.verify_password plain (Digest.malformed s) =
      Except.error PasslibError.unknownHash := rfl

/-! ## C1 — has_permission -/

/-- Unfolding equation: a held role id that resolves to no role is skipped. -/
theorem roleLoop_cons_none (roleById : String → Option Role) (permId : Option String)
    (rid : String) (rest : List String) (h : roleById rid = none) :
    AuthorizationService.roleLoop roleById permId (rid :: rest) =
      AuthorizationService.roleLoop roleById permId rest := by
  simp [AuthorizationService.roleLoop, h]

/-- Unfolding equation: a held role id that resolves is tested, with the rest
of the list as fallback. -/
theorem roleLoop_cons_some (roleById : String → Option Role) (permId : Option String)
    (rid : String) (rest : List String) (role : Role) (h : roleById rid = some role) :
    AuthorizationService.roleLoop roleById permId (rid :: rest) =
      (if pyIdMem permId role.permission_ids then true
       else AuthorizationService.roleLoop roleById permId rest) := by
  simp [AuthorizationService.roleLoop, h]

/-- The role loop of `has_permission` returns true exactly when some held
role id resolves to a role whose permission-id set contains the permission's
id (missing roles skipped). -/
theorem roleLoop_iff (roleById : String → Option Role) (permId : Option String)
    (l : List String) :
    AuthorizationService.roleLoop roleById permId l = true ↔
      ∃ rid, rid ∈ l ∧ ∃ role, roleById rid = some role ∧
        pyIdMem permId role.permission_ids = true := by
  induction l with
  | nil => simp [AuthorizationService.roleLoop]
  | cons rid rest ih =>
    cases h : roleById rid with
    | none =>
      rw [roleLoop_cons_none roleById permId rid rest h, ih]
      constructor
      · rintro ⟨r, hr, role, hrole, hm⟩
        exact ⟨r, List.mem_cons_of_mem _ hr, role, hrole, hm⟩
      · rintro ⟨r, hr, role, hrole, hm⟩
        rcases List.mem_cons.mp hr with rfl | hr'
        · rw [h] at hrole; cases hrole
        · exact ⟨r, hr', role, hrole, hm⟩
    | some role =>
      rw [roleLoop_cons_some roleById permId rid rest role h]
      by_cases hm : pyIdMem permId role.permission_ids = true
      · rw [if_pos hm]
        constructor
        · intro _
          exact ⟨rid, List.mem_cons_self _ _, role, h, hm⟩
        · intro _
          rfl
      · rw [if_neg hm, ih]
        constructor
        · rintro ⟨r, hr, role', hrole, hm'⟩
          exact ⟨r, List.mem_cons_of_mem _ hr, role', hrole, hm'⟩
        · rintro ⟨r, hr, role', hrole, hm'⟩
          rcases List.mem_cons.mp hr with rfl | hr'
          · rw [h] at hrole
            have hre : role = role' := Option.some.inj hrole
            rw [← hre] at hm'
            exact absurd hm' hm
          · exact ⟨r, hr', role', hrole, hm'⟩

/-- C1: `has_permission(principal, name)` is true iff the principal is a
superuser (even for a name resolving to no permission), or the name resolves
to a permission whose id is in the principal's direct permission-id set or in
the permission-id set of at least one held role (missing roles skipped); and
it is false — a boolean, not an error — when the name does not resolve. -/
theorem has_permission_spec (permByName : String → Option Permission)
    (roleById : String → Option Role) (u : User) (name : String) :
    (AuthorizationService.has_permission permByName roleById u name = true ↔
      (u.is_superuser = true ∨
        ∃ perm, permByName name = some perm ∧
          (pyIdMem perm.id u.permission_ids = true ∨
            ∃ rid, rid ∈ u.role_ids ∧
              ∃ role, roleById rid = some role ∧
                pyIdMem perm.id role.permission_ids = true)))
    ∧ (u.is_superuser = true →
        AuthorizationService.has_permission permByName roleById u name = true)
    ∧ (u.is_superuser = false → permByName name = none →
        AuthorizationService.has_permission permByName roleById u name = false) := by
  have hsup : ∀ h : u.is_superuser = true,
      AuthorizationService.has_permission permByName roleById u name = true := by
    intro h
    simp [AuthorizationService.has_permission, h]
  have hnone : ∀ (hs : u.is_superuser = false) (hp : permByName name = none),
      AuthorizationService.has_permission permByName roleById u name = false := by
    intro hs hp
    simp [AuthorizationService.has_permission, hs, hp]
  have hsome : ∀ (hs : u.is_superuser = false) (perm : Permission)
      (hp : permByName name = some perm),
      AuthorizationService.has_permission permByName roleById u name =
        (if pyIdMem perm.id u.permission_ids then true
         else AuthorizationService.roleLoop roleById perm.id u.role_ids) := by
    intro hs perm hp
    simp [AuthorizationService.has_permission, hs, hp]
  refine ⟨?_, hsup, hnone⟩
  by_cases hs : u.is_superuser = true
  · rw [hsup hs]
    constructor
    · intro _
      exact Or.inl hs
    · intro _
      rfl
  · have hs' : u.is_superuser = false := by
      cases hb : u.is_superuser
      · rfl
      · exact absurd hb hs
    cases hp : permByName name with
    | none =>
      rw [hnone hs' hp]
      constructor
      · intro hfalse; cases hfalse
      · rintro (hsu | ⟨perm, hperm, _⟩)
        · exact absurd hsu hs
        · exact Option.noConfusion hperm
    | some perm =>
      rw [hsome hs' perm hp]
      by_cases hd : pyIdMem perm.id u.permission_ids = true
      · rw [if_pos hd]
        constructor
        · intro _
          exact Or.inr ⟨perm, rfl, Or.inl hd⟩
        · intro _
          rfl
      · rw [if_neg hd, roleLoop_iff]
        constructor
        · intro hex
          exact Or.inr ⟨perm, rfl, Or.inr hex⟩
        · rintro (hsu | ⟨perm', hperm', hcase⟩)
          · exact absurd hsu hs
          · have hpe : perm = perm' := Option.some.inj hperm'
            rw [← hpe] at hcase
            rcases hcase with hd' | hex
            · exact absurd hd' hd
            · exact hex

/-- C1 witness: a superuser passes even for a name resolving to no
permission, and a plain user fails for a non-resolving name. -/
theorem has_permission_spec_witness :
    AuthorizationService.has_permission (fun _ => none) (fun _ => none)
        superUser "nonexistent" = true
    ∧ AuthorizationService.has_permission (fun _ => none) (fun _ => none)
        baseUser "nonexistent" = false :=
  ⟨(has_permission_spec (fun _ => none) (fun _ => none) superUser "nonexistent").2.1 rfl,
   (has_permission_spec (fun _ => none) (fun _ => none) baseUser "nonexistent").2.2 rfl rfl⟩

/-! ## C4 — lockout is not strategy-independent -/

/-- C4: the email/magic-link strategy neither rejects a locked principal nor
feeds any failed-attempt counter.  At time 0 the sample user is locked
(until 1000), yet `EmailAuthStrategy.authenticate` accepts the bare email and
returns the user, and a failed magic-token attempt leaves the stored record
unchanged (no counter incremented); the same locked user presented to the
username/password strategy with the correct password is rejected with the
account-locked error. -/
theorem email_strategy_bypasses_lockout :
    EmailAuthStrategy.authenticate
        (fun e => if e = "alice@example.com" then some lockedUser else none) 0
        (some "alice@example.com") none =
      ⟨Except.ok lockedUser, some lockedUser⟩
    ∧ lockedUser.is_locked 0 = true
    ∧ EmailAuthStrategy.authenticate
        (fun e => if e = "alice@example.com" then some lockedUser else none) 0
        (some "alice@example.com")
        (some ⟨[("email", JVal.str "alice@example.com")], false⟩) =
      ⟨Except.error AuthError.invalidMagicToken, some lockedUser⟩
    ∧ (UsernamePasswordAuthStrategy.authenticate
        (fun i => if i = "alice@example.com" then some lockedUser else none) 0
        none (some "alice@example.com") (some "secret")).result =
      Except.error AuthError.accountLocked := by
  refine ⟨rfl, rfl, rfl, rfl⟩

/-! ## Unfolding equations for decode_token -/

theorem decode_token_sig_false (now : Int) (t : Token) (h : t.sig_ok = false) :
    TokenManager.decode_token now t =
      Except.error (TokenErr.invalid "Signature verification failed") := by
  simp [TokenManager.decode_token, h]

theorem decode_token_no_exp (now : Int) (t : Token) (h : t.sig_ok = true)
    (hx : dget t.payload "exp" = none) :
    TokenManager.decode_token now t = Except.ok t.payload := by
  simp [TokenManager.decode_token, h, hx]

theorem decode_token_exp_int (now : Int) (t : Token) (e : Int) (h : t.sig_ok = true)
    (hx : dget t.payload "exp" = some (JVal.int e)) :
    TokenManager.decode_token now t =
      (if e ≤ now then Except.error TokenErr.expired else Except.ok t.payload) := by
  simp [TokenManager.decode_token, h, hx]

theorem decode_token_exp_str (now : Int) (t : Token) (s : String) (h : t.sig_ok = true)
    (hx : dget t.payload "exp" = some (JVal.str s)) :
    TokenManager.decode_token now t =
      Except.error (TokenErr.invalid "Expiration Time claim (exp) must be an integer.") := by
  simp [TokenManager.decode_token, h, hx]

theorem decode_token_exp_bool (now : Int) (t : Token) (b : Bool) (h : t.sig_ok = true)
    (hx : dget t.payload "exp" = some (JVal.bool b)) :
    TokenManager.decode_token now t =
      Except.error (TokenErr.invalid "Expiration Time claim (exp) must be an integer.") := by
  simp [TokenManager.decode_token, h, hx]

/-! ## C6 — access-token round-trip -/

/-- C6 counterexample: the claim quantifies over every claims map, but
`create_access_token` overwrites a caller-supplied `type` (or `exp`) entry,
so for the claims map binding `type` to `"refresh"` the decoded payload does
not contain that original claim. -/
theorem access_token_roundtrip_counterexample :
    dget [("type", JVal.str "refresh")] "type" = some (JVal.str "refresh")
    ∧ TokenManager.decode_token 0
        (TokenManager.create_access_token 0 [("type", JVal.str "refresh")]) =
      Except.ok [("type", JVal.str "access"), ("exp", JVal.int 1800)]
    ∧ dget [("type", JVal.str "access"), ("exp", JVal.int 1800)] "type" ≠
        some (JVal.str "refresh") := by
  refine ⟨rfl, ?_, by decide⟩
  rfl

/-- C6 amended: for every claims map that binds neither `exp` nor `type`
(the keys `create_access_token` overwrites), decoding the created token at
creation time succeeds and yields all of the original claims plus
`type = "access"` and an expiry equal to creation time plus the configured
30-minute access TTL, which is in the future at creation time. -/
theorem access_token_roundtrip_amended (claims : Claims) (now : Int)
    (hexp : dget claims "exp" = none) (htype : dget claims "type" = none) :
    ∃ p, TokenManager.decode_token now (TokenManager.create_access_token now claims) =
        Except.ok p
      ∧ (∀ k v, dget claims k = some v → dget p k = some v)
      ∧ dget p "type" = some (JVal.str "access")
      ∧ dget p "exp" =
          some (JVal.int (now + settings.ACCESS_TOKEN_EXPIRE_MINUTES * 60))
      ∧ now < now + settings.ACCESS_TOKEN_EXPIRE_MINUTES * 60 := by
  set e : Int := now + settings.ACCESS_TOKEN_EXPIRE_MINUTES * 60 with he
  have h1 : dput claims "exp" (JVal.int e) = claims ++ [("exp", JVal.int e)] :=
    dput_of_absent claims "exp" (JVal.int e) hexp
  have h2 : dget (claims ++ [("exp", JVal.int e)]) "type" = none := by
    rw [dget_append_right _ _ _ htype]
    rfl
  have h3 : dput (claims ++ [("exp", JVal.int e)]) "type" (JVal.str "access") =
      claims ++ [("exp", JVal.int e)] ++ [("type", JVal.str "access")] :=
    dput_of_absent _ _ _ h2
  have hpayload : (TokenManager.create_access_token now claims).payload =
      claims ++ [("exp", JVal.int e)] ++ [("type", JVal.str "access")] := by
    simp only [TokenManager.create_access_token, ← he, h1, h3]
  have hgetexp : dget (claims ++ [("exp", JVal.int e)] ++ [("type", JVal.str "access")])
      "exp" = some (JVal.int e) := by
    apply dget_append_left
    rw [dget_append_right _ _ _ hexp]
    rfl
  have hgettype : dget (claims ++ [("exp", JVal.int e)] ++ [("type", JVal.str "access")])
      "type" = some (JVal.str "access") := by
    rw [dget_append_right _ _ _ h2]
    rfl
  have hfut : now < e := by
    rw [he]
    simp [settings.ACCESS_TOKEN_EXPIRE_MINUTES]
  refine ⟨claims ++ [("exp", JVal.int e)] ++ [("type", JVal.str "access")], ?_, ?_, hgettype, hgetexp, hfut⟩
  · have hsig : (TokenManager.create_access_token now claims).sig_ok = true := rfl
    have hdx : dget (TokenManager.create_access_token now claims).payload "exp" =
        some (JVal.int e) := by
      rw [hpayload]
      exact hgetexp
    rw [decode_token_exp_int now _ e hsig hdx, if_neg (by omega), hpayload]
  · intro k v hv
    exact dget_append_left _ _ _ _ (dget_append_left _ _ _ _ hv)

/-- C6 amended witness: the round-trip at a concrete claims map without
`exp`/`type` keys. -/
theorem access_token_roundtrip_amended_witness :
    ∃ p, TokenManager.decode_token 0 (TokenManager.create_access_token 0
        [("sub", JVal.str "u1")]) = Except.ok p
      ∧ (∀ k v, dget [("sub", JVal.str "u1")] k = some v → dget p k = some v)
      ∧ dget p "type" = some (JVal.str "access")
      ∧ dget p "exp" = some (JVal.int (0 + settings.ACCESS_TOKEN_EXPIRE_MINUTES * 60))
      ∧ (0 : Int) < 0 + settings.ACCESS_TOKEN_EXPIRE_MINUTES * 60 :=
  access_token_roundtrip_amended [("sub", JVal.str "u1")] 0 rfl rfl

/-! ## C7 — decode failure classification -/

/-- C7: `decode_token` fails with the expired error exactly when a token
whose signature verifies carries an integer `exp` at or before now; it fails
with the invalid error exactly on signature/format failure (bad signature, or
a non-integer `exp` claim — PyJWT checks the signature before the registered
claims, so signature failure takes precedence); it never fails any other way
(the result is total: success or one of the two errors); and the two failure
kinds are distinct values with distinct messages. -/
theorem decode_token_failure_classification (now : Int) (t : Token) :
    (TokenManager.decode_token now t = Except.error TokenErr.expired ↔
      t.sig_ok = true ∧ ∃ e : Int, dget t.payload "exp" = some (JVal.int e) ∧ e ≤ now)
    ∧ ((∃ d, TokenManager.decode_token now t = Except.error (TokenErr.invalid d)) ↔
      (t.sig_ok = false ∨
        ∃ v, dget t.payload "exp" = some v ∧ ∀ e : Int, v ≠ JVal.int e))
    ∧ (TokenManager.decode_token now t = Except.ok t.payload ∨
        ∃ err, TokenManager.decode_token now t = Except.error err)
    ∧ (∀ d, TokenErr.expired ≠ TokenErr.invalid d)
    ∧ TokenErr.message TokenErr.expired ≠
        TokenErr.message (TokenErr.invalid "Signature verification failed") := by
  refine ⟨?_, ?_, ?_, ?_, by decide⟩
  · cases hs : t.sig_ok with
    | false =>
      rw [decode_token_sig_false now t hs]
      constructor
      · intro h; cases h
      · rintro ⟨hT, _⟩; cases hT
    | true =>
      cases hx : dget t.payload "exp" with
      | none =>
        rw [decode_token_no_exp now t hs hx]
        constructor
        · intro h; cases h
        · rintro ⟨_, e, he, _⟩
          cases he
      | some v =>
        cases v with
        | int e =>
          rw [decode_token_exp_int now t e hs hx]
          by_cases hle : e ≤ now
          · rw [if_pos hle]
            exact ⟨fun _ => ⟨rfl, e, rfl, hle⟩, fun _ => rfl⟩
          · rw [if_neg hle]
            constructor
            · intro h; cases h
            · rintro ⟨_, e', he', hle'⟩
              have hee : JVal.int e = JVal.int e' := Option.some.inj he'
              cases hee
              exact absurd hle' hle
        | str s =>
          rw [decode_token_exp_str now t s hs hx]
          constructor
          · intro h; cases h
          · rintro ⟨_, e', he', _⟩
            have := Option.some.inj he'
            cases this
        | bool b =>
          rw [decode_token_exp_bool now t b hs hx]
          constructor
          · intro h; cases h
          · rintro ⟨_, e', he', _⟩
            have := Option.some.inj he'
            cases this
  · cases hs : t.sig_ok with
    | false =>
      rw [decode_token_sig_false now t hs]
      exact ⟨fun _ => Or.inl rfl, fun _ => ⟨"Signature verification failed", rfl⟩⟩
    | true =>
      cases hx : dget t.payload "exp" with
      | none =>
        rw [decode_token_no_exp now t hs hx]
        constructor
        · rintro ⟨d, hd⟩; cases hd
        · rintro (hT | ⟨v, hv, _⟩)
          · cases hT
          · cases hv
      | some v =>
        cases v with
        | int e =>
          rw [decode_token_exp_int now t e hs hx]
          have hr : ∀ v' : JVal, some (JVal.int e) = some v' →
              (∀ i : Int, v' ≠ JVal.int i) → False := by
            intro v' hv' hne
            exact hne e (Option.some.inj hv').symm
          by_cases hle : e ≤ now
          · rw [if_pos hle]
            constructor
            · rintro ⟨d, hd⟩; cases hd
            · rintro (hT | ⟨v', hv', hne⟩)
              · cases hT
              · exact absurd (hr v' hv' hne) not_false
          · rw [if_neg hle]
            constructor
            · rintro ⟨d, hd⟩; cases hd
            · rintro (hT | ⟨v', hv', hne⟩)
              · cases hT
              · exact absurd (hr v' hv' hne) not_false
        | str s =>
          rw [decode_token_exp_str now t s hs hx]
          constructor
          · intro _
            exact Or.inr ⟨JVal.str s, rfl, by intro i h; cases h⟩
          · intro _
            exact ⟨"Expiration Time claim (exp) must be an integer.", rfl⟩
        | bool b =>
          rw [decode_token_exp_bool now t b hs hx]
          constructor
          · intro _
            exact Or.inr ⟨JVal.bool b, rfl, by intro i h; cases h⟩
          · intro _
            exact ⟨"Expiration Time claim (exp) must be an integer.", rfl⟩
  · cases hs : t.sig_ok with
    | false =>
      exact Or.inr ⟨TokenErr.invalid "Signature verification failed",
        decode_token_sig_false now t hs⟩
    | true =>
      cases hx : dget t.payload "exp" with
      | none => exact Or.inl (decode_token_no_exp now t hs hx)
      | some v =>
        cases v with
        | int e =>
          by_cases hle : e ≤ now
          · exact Or.inr ⟨TokenErr.expired,
              by rw [decode_token_exp_int now t e hs hx, if_pos hle]⟩
          · exact Or.inl (by rw [decode_token_exp_int now t e hs hx, if_neg hle])
        | str s =>
          exact Or.inr ⟨TokenErr.invalid "Expiration Time claim (exp) must be an integer.",
            decode_token_exp_str now t s hs hx⟩
        | bool b =>
          exact Or.inr ⟨TokenErr.invalid "Expiration Time claim (exp) must be an integer.",
            decode_token_exp_bool now t b hs hx⟩
  · intro d h
    cases h

/-- C7 witness: a well-signed token whose `exp` is in the past decodes to the
expired error, and a badly-signed token decodes to an invalid error. -/
theorem decode_token_failure_classification_witness :
    TokenManager.decode_token 10 ⟨[("exp", JVal.int 5)], true⟩ =
        Except.error TokenErr.expired
    ∧ ∃ d, TokenManager.decode_token 10 ⟨[("exp", JVal.int 5)], false⟩ =
        Except.error (TokenErr.invalid d) :=
  ⟨(decode_token_failure_classification 10 ⟨[("exp", JVal.int 5)], true⟩).1.mpr
      ⟨rfl, 5, rfl, by decide⟩,
   (decode_token_failure_classification 10 ⟨[("exp", JVal.int 5)], false⟩).2.1.mpr
      (Or.inl rfl)⟩

/-! ## Unfolding equations for the authentication entry points -/

theorem up_authenticate_locked (lookup : String → Option User) (now : Int)
    (username email password : Option String) (identifier pwd : String) (u : User)
    (hident : pyStr (pyStrOr username email) = some identifier)
    (hpwd : pyStr password = some pwd)
    (hfound : lookup identifier = some u)
    (hlocked : u.is_locked now = true) :
    UsernamePasswordAuthStrategy.authenticate lookup now username email password =
      ⟨Except.error AuthError.accountLocked, some u⟩ := by
  simp [UsernamePasswordAuthStrategy.authenticate, hident, hpwd, hfound, hlocked]

theorem up_authenticate_wrong_password (lookup : String → Option User) (now : Int)
    (username email password : Option String) (identifier pwd : String) (u : User)
    (hident : pyStr (pyStrOr username email) = some identifier)
    (hpwd : pyStr password = some pwd)
    (hfound : lookup identifier = some u)
    (hnotlocked : u.is_locked now = false)
    (hwrong : PasswordManager.verify_password pwd u.hashed_password = Except.ok false) :
    UsernamePasswordAuthStrategy.authenticate lookup now username email password =
      ⟨Except.error AuthError.invalidCredentials,
       some (User.increment_login_attempts now u)⟩ := by
  simp [UsernamePasswordAuthStrategy.authenticate, hident, hpwd, hfound, hnotlocked, hwrong]

theorem up_authenticate_correct_password (lookup : String → Option User) (now : Int)
    (username email password : Option String) (identifier pwd : String) (u : User)
    (hident : pyStr (pyStrOr username email) = some identifier)
    (hpwd : pyStr password = some pwd)
    (hfound : lookup identifier = some u)
    (hnotlocked : u.is_locked now = false)
    (hok : PasswordManager.verify_password pwd u.hashed_password = Except.ok true) :
    UsernamePasswordAuthStrategy.authenticate lookup now username email password =
      ⟨Except.ok (User.reset_login_attempts now u),
       some (User.reset_login_attempts now u)⟩ := by
  simp [UsernamePasswordAuthStrategy.authenticate, hident, hpwd, hfound, hnotlocked, hok]

theorem up_authenticate_verify_error (lookup : String → Option User) (now : Int)
    (username email password : Option String) (identifier pwd : String) (u : User)
    (e : PasslibError)
    (hident : pyStr (pyStrOr username email) = some identifier)
    (hpwd : pyStr password = some pwd)
    (hfound : lookup identifier = some u)
    (hnotlocked : u.is_locked now = false)
    (herr : PasswordManager.verify_password pwd u.hashed_password = Except.error e) :
    UsernamePasswordAuthStrategy.authenticate lookup now username email password =
      ⟨Except.error (AuthError.passlibPropagated e), some u⟩ := by
  simp [UsernamePasswordAuthStrategy.authenticate, hident, hpwd, hfound, hnotlocked, herr]

/-! ## Effects of the User counter methods -/

theorem increment_login_attempts_spec (now : Int) (u : User) :
    (User.increment_login_attempts now u).login_attempts = u.login_attempts + 1
    ∧ (User.increment_login_attempts now u).failed_login_attempts =
        u.failed_login_attempts
    ∧ (u.login_attempts + 1 ≥ 5 →
        (User.increment_login_attempts now u).locked_until = some (now + 30 * 60))
    ∧ (u.login_attempts + 1 < 5 →
        (User.increment_login_attempts now u).locked_until = u.locked_until) := by
  by_cases h : u.login_attempts + 1 ≥ 5
  · refine ⟨?_, ?_, fun _ => ?_, fun hlt => absurd h (by omega)⟩ <;>
      simp [User.increment_login_attempts, User.lock_account, h]
  · refine ⟨?_, ?_, fun hge => absurd hge h, fun _ => ?_⟩ <;>
      simp [User.increment_login_attempts, User.lock_account, h]

theorem reset_login_attempts_spec (now : Int) (u : User) :
    (User.reset_login_attempts now u).login_attempts = 0
    ∧ (User.reset_login_attempts now u).failed_login_attempts =
        u.failed_login_attempts
    ∧ (User.reset_login_attempts now u).locked_until = none := by
  refine ⟨rfl, rfl, rfl⟩

theorem handle_failed_login_spec (now : Int) (m : Nat) (d : Int) (u : User) :
    (AuthenticationService.handle_failed_login now m d u).failed_login_attempts =
        u.failed_login_attempts + 1
    ∧ (AuthenticationService.handle_failed_login now m d u).login_attempts =
        u.login_attempts
    ∧ (u.failed_login_attempts + 1 ≥ m →
        (AuthenticationService.handle_failed_login now m d u).locked_until =
          some (now + d * 60))
    ∧ (¬ u.failed_login_attempts + 1 ≥ m →
        (AuthenticationService.handle_failed_login now m d u).locked_until =
          u.locked_until) := by
  by_cases h : u.failed_login_attempts + 1 ≥ m
  · refine ⟨?_, ?_, fun _ => ?_, fun hlt => absurd h hlt⟩ <;>
      simp [AuthenticationService.handle_failed_login, h]
  · refine ⟨?_, ?_, fun hge => absurd hge h, fun _ => ?_⟩ <;>
      simp [AuthenticationService.handle_failed_login, h]

theorem handle_successful_login_spec (now : Int) (u : User) :
    (AuthenticationService.handle_successful_login now u).failed_login_attempts = 0
    ∧ (AuthenticationService.handle_successful_login now u).login_attempts =
        u.login_attempts
    ∧ (AuthenticationService.handle_successful_login now u).locked_until = none :=
  ⟨rfl, rfl, rfl⟩

/-! ## C2 — failed-attempt counting and lockout threshold -/

/-- A user one failed attempt away from the lockout threshold. -/
def almostLockedUser : User :=
  { baseUser with id := some "u4", username := "carol", email := "carol@example.com",
                  hashed_password := Digest.pbkdf2_sha256 "right",
                  login_attempts := 4 }

/-- The by-identifier store containing only `almostLockedUser`. -/
def lookupCarol : String → Option User :=
  fun i => if i = "carol" then some almostLockedUser else none

/-- `almostLockedUser` after its fifth failed attempt at time 100. -/
def carolAfterFail : User := User.increment_login_attempts 100 almostLockedUser

/-- The by-identifier store after the fifth failed attempt was persisted. -/
def lookupCarolAfter : String → Option User :=
  fun i => if i = "carol" then some carolAfterFail else none

/-- C2: a failed password verification against a non-locked principal
increments the counter by exactly one and persists the incremented record;
below the threshold the lock-until is unchanged, and when the counter
reaches 5 the record is locked until now + 30 minutes; the locking attempt
itself raises the generic invalid-credentials error (not the account-locked
error); and the next attempt against the persisted record — with any
password, in particular the correct one — fails with the account-locked
error as long as the lock-until has not elapsed, leaving the record
unchanged. -/
theorem lockout_progression
    (lookup lookup2 : String → Option User) (now now2 : Int)
    (username email password password2 : Option String)
    (identifier pwd pwd2 : String) (u : User)
    (hident : pyStr (pyStrOr username email) = some identifier)
    (hpwd : pyStr password = some pwd)
    (hfound : lookup identifier = some u)
    (hnotlocked : u.is_locked now = false)
    (hwrong : PasswordManager.verify_password pwd u.hashed_password = Except.ok false) :
    UsernamePasswordAuthStrategy.authenticate lookup now username email password =
        ⟨Except.error AuthError.invalidCredentials,
         some (User.increment_login_attempts now u)⟩
    ∧ (User.increment_login_attempts now u).login_attempts = u.login_attempts + 1
    ∧ (u.login_attempts + 1 < 5 →
        (User.increment_login_attempts now u).locked_until = u.locked_until)
    ∧ (u.login_attempts + 1 ≥ 5 →
        (User.increment_login_attempts now u).locked_until = some (now + 30 * 60))
    ∧ AuthError.invalidCredentials ≠ AuthError.accountLocked
    ∧ (u.login_attempts = 4 →
        pyStr password2 = some pwd2 →
        lookup2 identifier = some (User.increment_login_attempts now u) →
        now2 < now + 30 * 60 →
        UsernamePasswordAuthStrategy.authenticate lookup2 now2 username email password2 =
          ⟨Except.error AuthError.accountLocked,
           some (User.increment_login_attempts now u)⟩) := by
  have hinc := increment_login_attempts_spec now u
  refine ⟨?_, ?_, ?_, ?_, ?_, ?_⟩
  · exact up_authenticate_wrong_password lookup now username email password identifier
      pwd u hident hpwd hfound hnotlocked hwrong
  · exact hinc.1
  · exact fun hlt => hinc.2.2.2 hlt
  · exact fun hge => hinc.2.2.1 hge
  · intro h; cases h
  intro h4 hpwd2 hfound2 hbefore
  have hlockeduntil : (User.increment_login_attempts now u).locked_until =
      some (now + 30 * 60) := hinc.2.2.1 (by omega)
  have hlocked : (User.increment_login_attempts now u).is_locked now2 = true := by
    simp [User.is_locked, hlockeduntil]
    omega
  exact up_authenticate_locked lookup2 now2 username email password2 identifier pwd2
    (User.increment_login_attempts now u) hident hpwd2 hfound2 hlocked

/-- C2 witness: carol, at 4 failed attempts, fails with the wrong password at
time 100 — generic invalid-credentials error, record persisted at 5 attempts
and locked until 1900 — and the next attempt at time 200 with the correct
password fails with the account-locked error. -/
theorem lockout_progression_witness :
    UsernamePasswordAuthStrategy.authenticate lookupCarol 100
        (some "carol") none (some "wrong") =
      ⟨Except.error AuthError.invalidCredentials, some carolAfterFail⟩
    ∧ carolAfterFail.login_attempts = 5
    ∧ carolAfterFail.locked_until = some 1900
    ∧ UsernamePasswordAuthStrategy.authenticate lookupCarolAfter 200
        (some "carol") none (some "right") =
      ⟨Except.error AuthError.accountLocked, some carolAfterFail⟩ := by
  have h := lockout_progression lookupCarol lookupCarolAfter 100 200
    (some "carol") none (some "wrong") (some "right") "carol" "wrong" "right"
    almostLockedUser rfl rfl (by decide) (by decide) (by decide)
  refine ⟨h.1, by decide, by decide, ?_⟩
  exact h.2.2.2.2.2 (by decide) rfl (by decide) (by decide)

/-! ## C3 — locked account rejected without touching the record -/

/-- C3: authenticating against a principal whose lock-until is still in the
future fails immediately with the account-locked error — a value distinct
(and with a distinct message) from the generic invalid-credentials
authentication failure — and the stored record is the located record
unchanged: neither the failed-attempt counter nor the lock-until is
modified. -/
theorem locked_account_rejected_without_counting
    (lookup : String → Option User) (now : Int)
    (username email password : Option String) (identifier pwd : String) (u : User)
    (hident : pyStr (pyStrOr username email) = some identifier)
    (hpwd : pyStr password = some pwd)
    (hfound : lookup identifier = some u)
    (hlocked : u.is_locked now = true) :
    UsernamePasswordAuthStrategy.authenticate lookup now username email password =
        ⟨Except.error AuthError.accountLocked, some u⟩
    ∧ AuthError.accountLocked ≠ AuthError.invalidCredentials
    ∧ AuthError.accountLocked.message ≠ AuthError.invalidCredentials.message
    ∧ AuthError.accountLocked.isAuthenticationError = true := by
  refine ⟨?_, ?_, ?_, ?_⟩
  · exact up_authenticate_locked lookup now username email password identifier pwd u
      hident hpwd hfound hlocked
  · intro h; cases h
  · decide
  · rfl

/-- C3 witness: the locked sample user, rejected at time 0 with the record
unchanged. -/
theorem locked_account_rejected_without_counting_witness :
    UsernamePasswordAuthStrategy.authenticate
        (fun i => if i = "alice" then some lockedUser else none) 0
        (some "alice") none (some "secret") =
      ⟨Except.error AuthError.accountLocked, some lockedUser⟩ :=
  (locked_account_rejected_without_counting
    (fun i => if i = "alice" then some lockedUser else none) 0
    (some "alice") none (some "secret") "alice" "secret" lockedUser
    rfl rfl (by decide) (by decide)).1

/-! ## C5 — validate_token -/

/-- C5: `validate_token` returns the principal iff the token decodes, has
type `"access"`, carries a truthy subject id, and that id resolves to an
existing active principal; a decode-level failure is caught at the strategy
boundary and re-raised as an authentication error; a refresh-typed token is
rejected; and every failure the function can produce is a Python
`AuthenticationError`. -/
theorem validate_token_spec (getById : JVal → Option User) (now : Int)
    (t : Token) (u : User) :
    (UsernamePasswordAuthStrategy.validate_token getById now t = Except.ok u ↔
      ∃ payload, TokenManager.decode_token now t = Except.ok payload
        ∧ dget payload "type" = some (JVal.str "access")
        ∧ ∃ v, dget payload "sub" = some v ∧ pyTruthy v = true
            ∧ getById v = some u ∧ u.is_active = true)
    ∧ (∀ e, TokenManager.decode_token now t = Except.error e →
        UsernamePasswordAuthStrategy.validate_token getById now t =
          Except.error (AuthError.tokenValidationFailed e))
    ∧ (∀ payload, TokenManager.decode_token now t = Except.ok payload →
        dget payload "type" = some (JVal.str "refresh") →
        UsernamePasswordAuthStrategy.validate_token getById now t =
          Except.error AuthError.invalidTokenType)
    ∧ (∀ e, UsernamePasswordAuthStrategy.validate_token getById now t =
          Except.error e → e.isAuthenticationError = true) := by
  cases hdec : TokenManager.decode_token now t with
  | error e0 =>
    have hv : UsernamePasswordAuthStrategy.validate_token getById now t =
        Except.error (AuthError.tokenValidationFailed e0) := by
      simp [UsernamePasswordAuthStrategy.validate_token, hdec]
    refine ⟨?_, ?_, ?_, ?_⟩
    · rw [hv]
      constructor
      · intro h; cases h
      · rintro ⟨p, hp, _⟩; cases hp
    · intro e he
      cases he
      exact hv
    · intro p hp _
      cases hp
    · intro e he
      rw [hv] at he
      cases he
      rfl
  | ok payload =>
    have hrefmp : ∀ p : Claims, Except.ok (ε := TokenErr) payload = Except.ok p →
        payload = p := by
      intro p hp
      cases hp
      rfl
    by_cases htype : dget payload "type" = some (JVal.str "access")
    · cases hsub : dget payload "sub" with
      | none =>
        have hv : UsernamePasswordAuthStrategy.validate_token getById now t =
            Except.error AuthError.invalidToken := by
          simp [UsernamePasswordAuthStrategy.validate_token, hdec, htype, hsub]
        refine ⟨?_, ?_, ?_, ?_⟩
        · rw [hv]
          constructor
          · intro h; cases h
          · rintro ⟨p, hp, htp, v', hsv, _⟩
            rw [← hrefmp p hp] at hsv
            rw [hsub] at hsv
            cases hsv
        · intro e he; cases he
        · intro p hp hrefresh
          rw [← hrefmp p hp] at hrefresh
          rw [htype] at hrefresh
          exact absurd hrefresh (by decide)
        · intro e he
          rw [hv] at he
          cases he
          rfl
      | some v =>
        cases htru : pyTruthy v with
        | false =>
          have hv : UsernamePasswordAuthStrategy.validate_token getById now t =
              Except.error AuthError.invalidToken := by
            simp [UsernamePasswordAuthStrategy.validate_token, hdec, htype, hsub, htru]
          refine ⟨?_, ?_, ?_, ?_⟩
          · rw [hv]
            constructor
            · intro h; cases h
            · rintro ⟨p, hp, htp, v', hsv, htru', _⟩
              rw [← hrefmp p hp] at hsv
              rw [hsub] at hsv
              have : v = v' := Option.some.inj hsv
              rw [← this] at htru'
              rw [htru] at htru'
              cases htru'
          · intro e he; cases he
          · intro p hp hrefresh
            rw [← hrefmp p hp] at hrefresh
            rw [htype] at hrefresh
            exact absurd hrefresh (by decide)
          · intro e he
            rw [hv] at he
            cases he
            rfl
        | true =>
          cases hby : getById v with
          | none =>
            have hv : UsernamePasswordAuthStrategy.validate_token getById now t =
                Except.error AuthError.userNotFoundOrInactive := by
              simp [UsernamePasswordAuthStrategy.validate_token, hdec, htype, hsub,
                htru, hby]
            refine ⟨?_, ?_, ?_, ?_⟩
            · rw [hv]
              constructor
              · intro h; cases h
              · rintro ⟨p, hp, htp, v', hsv, htru', hby', _⟩
                rw [← hrefmp p hp] at hsv
                rw [hsub] at hsv
                have : v = v' := Option.some.inj hsv
                rw [← this] at hby'
                rw [hby] at hby'
                cases hby'
            · intro e he; cases he
            · intro p hp hrefresh
              rw [← hrefmp p hp] at hrefresh
              rw [htype] at hrefresh
              exact absurd hrefresh (by decide)
            · intro e he
              rw [hv] at he
              cases he
              rfl
          | some w =>
            cases hact : w.is_active with
            | false =>
              have hv : UsernamePasswordAuthStrategy.validate_token getById now t =
                  Except.error AuthError.userNotFoundOrInactive := by
                simp [UsernamePasswordAuthStrategy.validate_token, hdec, htype, hsub,
                  htru, hby, hact]
              refine ⟨?_, ?_, ?_, ?_⟩
              · rw [hv]
                constructor
                · intro h; cases h
                · rintro ⟨p, hp, htp, v', hsv, htru', hby', hact'⟩
                  rw [← hrefmp p hp] at hsv
                  rw [hsub] at hsv
                  have hvv : v = v' := Option.some.inj hsv
                  rw [← hvv] at hby'
                  rw [hby] at hby'
                  have : w = u := Option.some.inj hby'
                  rw [← this] at hact'
                  rw [hact] at hact'
                  cases hact'
              · intro e he; cases he
              · intro p hp hrefresh
                rw [← hrefmp p hp] at hrefresh
                rw [htype] at hrefresh
                exact absurd hrefresh (by decide)
              · intro e he
                rw [hv] at he
                cases he
                rfl
            | true =>
              have hv : UsernamePasswordAuthStrategy.validate_token getById now t =
                  Except.ok w := by
                simp [UsernamePasswordAuthStrategy.validate_token, hdec, htype, hsub,
                  htru, hby, hact]
              refine ⟨?_, ?_, ?_, ?_⟩
              · rw [hv]
                constructor
                · intro h
                  have hw : w = u := Except.ok.inj h
                  rw [← hw]
                  exact ⟨payload, rfl, htype, v, hsub, htru, hby, hact⟩
                · rintro ⟨p, hp, htp, v', hsv, htru', hby', hact'⟩
                  rw [← hrefmp p hp] at hsv
                  rw [hsub] at hsv
                  have hvv : v = v' := Option.some.inj hsv
                  rw [← hvv] at hby'
                  rw [hby] at hby'
                  have : w = u := Option.some.inj hby'
                  rw [this]
              · intro e he; cases he
              · intro p hp hrefresh
                rw [← hrefmp p hp] at hrefresh
                rw [htype] at hrefresh
                exact absurd hrefresh (by decide)
              · intro e he
                rw [hv] at he
                cases he
    · have hv : UsernamePasswordAuthStrategy.validate_token getById now t =
          Except.error AuthError.invalidTokenType := by
        simp [UsernamePasswordAuthStrategy.validate_token, hdec, htype]
      refine ⟨?_, ?_, ?_, ?_⟩
      · rw [hv]
        constructor
        · intro h; cases h
        · rintro ⟨p, hp, htp, _⟩
          rw [← hrefmp p hp] at htp
          exact absurd htp htype
      · intro e he; cases he
      · intro p hp hrefresh
        exact hv
      · intro e he
        rw [hv] at he
        cases he
        rfl

/-- The by-id store containing only the baseline user, keyed by its string
id. -/
def getByIdBase : JVal → Option User :=
  fun v => if v = JVal.str "u0" then some baseUser else none

/-- C5 witness: a well-signed access token with `sub = "u0"` validates to the
baseline active user, and the same token with `type = "refresh"` is rejected
with the invalid-token-type error. -/
theorem validate_token_spec_witness :
    UsernamePasswordAuthStrategy.validate_token getByIdBase 0
        ⟨[("type", JVal.str "access"), ("sub", JVal.str "u0")], true⟩ =
      Except.ok baseUser
    ∧ UsernamePasswordAuthStrategy.validate_token getByIdBase 0
        ⟨[("type", JVal.str "refresh"), ("sub", JVal.str "u0")], true⟩ =
      Except.error AuthError.invalidTokenType :=
  ⟨(validate_token_spec getByIdBase 0
      ⟨[("type", JVal.str "access"), ("sub", JVal.str "u0")], true⟩ baseUser).1.mpr
    ⟨[("type", JVal.str "access"), ("sub", JVal.str "u0")], by decide, by decide,
      JVal.str "u0", by decide, by decide, by decide, by decide⟩,
   (validate_token_spec getByIdBase 0
      ⟨[("type", JVal.str "refresh"), ("sub", JVal.str "u0")], true⟩ baseUser).2.2.1
    [("type", JVal.str "refresh"), ("sub", JVal.str "u0")] (by decide) (by decide)⟩

/-! ## C8 — email/magic-link authenticate -/

/-- C8 counterexample: the claim requires success iff an ACTIVE principal
with the email exists, but `get_by_email` performs no activity filtering and
`EmailAuthStrategy.authenticate` never checks `is_active`, so an inactive
principal authenticates successfully. -/
theorem email_auth_accepts_inactive_counterexample :
    (EmailAuthStrategy.authenticate
        (fun e => if e = "bob@example.com" then some inactiveUser else none) 0
        (some "bob@example.com") none).result = Except.ok inactiveUser
    ∧ inactiveUser.is_active = false := by
  exact ⟨by decide, rfl⟩

/-- C8 amended: without a magic token, email authentication succeeds iff a
principal with the given email exists (active or not — no activity check is
performed); with a magic token it additionally requires the token to decode
and its embedded `email` claim to equal the input email exactly, and fails
with the invalid-magic-token authentication error on decode failure or
mismatch; every failure is a Python `AuthenticationError`. -/
theorem email_authenticate_amended
    (getByEmail : String → Option User) (now : Int) (em : String) (u : User)
    (tok : Token) (hem : em ≠ "") :
    ((EmailAuthStrategy.authenticate getByEmail now (some em) none).result =
        Except.ok u ↔ getByEmail em = some u)
    ∧ ((EmailAuthStrategy.authenticate getByEmail now (some em) (some tok)).result =
        Except.ok u ↔
        (getByEmail em = some u ∧
          ∃ payload, TokenManager.decode_token now tok = Except.ok payload ∧
            dget payload "email" = some (JVal.str em)))
    ∧ (∀ e, TokenManager.decode_token now tok = Except.error e →
        getByEmail em = some u →
        (EmailAuthStrategy.authenticate getByEmail now (some em) (some tok)).result =
          Except.error AuthError.invalidMagicToken)
    ∧ (∀ payload, TokenManager.decode_token now tok = Except.ok payload →
        dget payload "email" ≠ some (JVal.str em) →
        getByEmail em = some u →
        (EmailAuthStrategy.authenticate getByEmail now (some em) (some tok)).result =
          Except.error AuthError.invalidMagicToken)
    ∧ (∀ e, (EmailAuthStrategy.authenticate getByEmail now (some em) (some tok)).result =
          Except.error e → e.isAuthenticationError = true) := by
  have hpy : pyStr (some em) = some em := by simp [pyStr, hem]
  refine ⟨?_, ?_, ?_, ?_, ?_⟩
  · cases hu : getByEmail em with
    | none =>
      have hv : (EmailAuthStrategy.authenticate getByEmail now (some em) none).result =
          Except.error AuthError.userNotFound := by
        simp [EmailAuthStrategy.authenticate, hpy, hu]
      rw [hv]
      constructor
      · intro h; cases h
      · intro h; cases h
    | some u0 =>
      have hv : (EmailAuthStrategy.authenticate getByEmail now (some em) none).result =
          Except.ok u0 := by
        simp [EmailAuthStrategy.authenticate, hpy, hu]
      rw [hv]
      constructor
      · intro h
        exact congrArg some (Except.ok.inj h)
      · intro h
        exact congrArg Except.ok (Option.some.inj h)
  · cases hu : getByEmail em with
    | none =>
      have hv : (EmailAuthStrategy.authenticate getByEmail now (some em) (some tok)).result =
          Except.error AuthError.userNotFound := by
        simp [EmailAuthStrategy.authenticate, hpy, hu]
      rw [hv]
      constructor
      · intro h; cases h
      · rintro ⟨h, _⟩; cases h
    | some u0 =>
      cases hd : TokenManager.decode_token now tok with
      | error e0 =>
        have hv : (EmailAuthStrategy.authenticate getByEmail now (some em) (some tok)).result =
            Except.error AuthError.invalidMagicToken := by
          simp [EmailAuthStrategy.authenticate, hpy, hu, hd]
        rw [hv]
        constructor
        · intro h; cases h
        · rintro ⟨_, p, hp, _⟩; cases hp
      | ok p0 =>
        by_cases hmail : dget p0 "email" = some (JVal.str em)
        · have hv : (EmailAuthStrategy.authenticate getByEmail now (some em) (some tok)).result =
              Except.ok u0 := by
            simp [EmailAuthStrategy.authenticate, hpy, hu, hd, hmail]
          rw [hv]
          constructor
          · intro h
            have hu0 : u0 = u := Except.ok.inj h
            exact ⟨by rw [hu0], p0, rfl, hmail⟩
          · rintro ⟨h1, _⟩
            exact congrArg Except.ok (Option.some.inj h1)
        · have hv : (EmailAuthStrategy.authenticate getByEmail now (some em) (some tok)).result =
              Except.error AuthError.invalidMagicToken := by
            simp [EmailAuthStrategy.authenticate, hpy, hu, hd, hmail]
          rw [hv]
          constructor
          · intro h; cases h
          · rintro ⟨h1, p, hp, hm⟩
            have hpp : p0 = p := by cases hp; rfl
            rw [← hpp] at hm
            exact absurd hm hmail
  · intro e hd hu
    simp [EmailAuthStrategy.authenticate, hpy, hu, hd]
  · intro p hd hm hu
    simp [EmailAuthStrategy.authenticate, hpy, hu, hd, hm]
  · cases hu : getByEmail em with
    | none =>
      intro e he
      have hv : (EmailAuthStrategy.authenticate getByEmail now (some em) (some tok)).result =
          Except.error AuthError.userNotFound := by
        simp [EmailAuthStrategy.authenticate, hpy, hu]
      rw [hv] at he
      cases he
      rfl
    | some u0 =>
      cases hd : TokenManager.decode_token now tok with
      | error e0 =>
        intro e he
        have hv : (EmailAuthStrategy.authenticate getByEmail now (some em) (some tok)).result =
            Except.error AuthError.invalidMagicToken := by
          simp [EmailAuthStrategy.authenticate, hpy, hu, hd]
        rw [hv] at he
        cases he
        rfl
      | ok p0 =>
        intro e he
        by_cases hmail : dget p0 "email" = some (JVal.str em)
        · have hv : (EmailAuthStrategy.authenticate getByEmail now (some em) (some tok)).result =
              Except.ok u0 := by
            simp [EmailAuthStrategy.authenticate, hpy, hu, hd, hmail]
          rw [hv] at he
          cases he
        · have hv : (EmailAuthStrategy.authenticate getByEmail now (some em) (some tok)).result =
              Except.error AuthError.invalidMagicToken := by
            simp [EmailAuthStrategy.authenticate, hpy, hu, hd, hmail]
          rw [hv] at he
          cases he
          rfl

/-- C8 amended witness: the baseline user authenticates by bare email, and
with a magic token carrying the matching `email` claim. -/
theorem email_authenticate_amended_witness :
    (EmailAuthStrategy.authenticate
        (fun e => if e = "user0@example.com" then some baseUser else none) 0
        (some "user0@example.com") none).result = Except.ok baseUser
    ∧ (EmailAuthStrategy.authenticate
        (fun e => if e = "user0@example.com" then some baseUser else none) 0
        (some "user0@example.com")
        (some ⟨[("email", JVal.str "user0@example.com")], true⟩)).result =
      Except.ok baseUser :=
  ⟨(email_authenticate_amended
      (fun e => if e = "user0@example.com" then some baseUser else none) 0
      "user0@example.com" baseUser ⟨[("email", JVal.str "user0@example.com")], true⟩
      (by decide)).1.mpr (by decide),
   (email_authenticate_amended
      (fun e => if e = "user0@example.com" then some baseUser else none) 0
      "user0@example.com" baseUser ⟨[("email", JVal.str "user0@example.com")], true⟩
      (by decide)).2.1.mpr
    ⟨by decide, [("email", JVal.str "user0@example.com")], by decide, by decide⟩⟩

/-! ## C10 — two independent lockout counters -/

theorem svc_authenticate_status_error (byEmail byUsername : String → Option User)
    (now : Int) (identifier password : String) (u : User) (e : AuthError)
    (hid : identifier ≠ "") (hpw : password ≠ "")
    (hfound : AuthenticationService.find_user_by_identifier byEmail byUsername
      identifier = some u)
    (hcs : AuthenticationService.check_account_status now u = some e) :
    AuthenticationService.authenticate_user byEmail byUsername now identifier password =
      ⟨Except.error e, some u⟩ := by
  simp [AuthenticationService.authenticate_user, hid, hpw, hfound, hcs]

theorem svc_authenticate_verify_error (byEmail byUsername : String → Option User)
    (now : Int) (identifier password : String) (u : User) (e : PasslibError)
    (hid : identifier ≠ "") (hpw : password ≠ "")
    (hfound : AuthenticationService.find_user_by_identifier byEmail byUsername
      identifier = some u)
    (hcs : AuthenticationService.check_account_status now u = none)
    (hv : PasswordManager.verify_password password u.hashed_password =
      Except.error e) :
    AuthenticationService.authenticate_user byEmail byUsername now identifier password =
      ⟨Except.error (AuthError.passlibPropagated e), some u⟩ := by
  simp [AuthenticationService.authenticate_user, hid, hpw, hfound, hcs, hv]

theorem svc_authenticate_wrong (byEmail byUsername : String → Option User)
    (now : Int) (identifier password : String) (u : User)
    (hid : identifier ≠ "") (hpw : password ≠ "")
    (hfound : AuthenticationService.find_user_by_identifier byEmail byUsername
      identifier = some u)
    (hcs : AuthenticationService.check_account_status now u = none)
    (hv : PasswordManager.verify_password password u.hashed_password =
      Except.ok false) :
    AuthenticationService.authenticate_user byEmail byUsername now identifier password =
      ⟨Except.error AuthError.invalidCredentials,
       some (AuthenticationService.handle_failed_login now
         AuthenticationService.max_login_attempts
         AuthenticationService.lockout_duration_minutes u)⟩ := by
  simp [AuthenticationService.authenticate_user, hid, hpw, hfound, hcs, hv]

theorem svc_authenticate_correct (byEmail byUsername : String → Option User)
    (now : Int) (identifier password : String) (u : User)
    (hid : identifier ≠ "") (hpw : password ≠ "")
    (hfound : AuthenticationService.find_user_by_identifier byEmail byUsername
      identifier = some u)
    (hcs : AuthenticationService.check_account_status now u = none)
    (hv : PasswordManager.verify_password password u.hashed_password =
      Except.ok true) :
    AuthenticationService.authenticate_user byEmail byUsername now identifier password =
      ⟨Except.ok (AuthenticationService.handle_successful_login now u),
       some (AuthenticationService.handle_successful_login now u)⟩ := by
  simp [AuthenticationService.authenticate_user, hid, hpw, hfound, hcs, hv]

/-- C10: the strategy path (is_locked / increment_login_attempts /
reset_login_attempts, over `login_attempts`) and the service path
(check_account_status / handle_failed_login / handle_successful_login, over
`failed_login_attempts`) are two independent lockout implementations: every
record a strategy authentication stores has the located record's
`failed_login_attempts` unchanged, every record a service authentication
stores has the located record's `login_attempts` unchanged, each handler
leaves the other path's counter untouched, and each path's lock decision is
invariant under changes to the other path's counter. -/
theorem dual_lockout_counters_independent
    (lookup byEmail byUsername : String → Option User)
    (now now2 : Int) (m : Nat) (d : Int) (k : Nat)
    (username email password : Option String)
    (identifier pwd identifier2 password2 : String) (u v : User)
    (hident : pyStr (pyStrOr username email) = some identifier)
    (hpwd : pyStr password = some pwd)
    (hfound : lookup identifier = some u)
    (hid2 : identifier2 ≠ "") (hpw2 : password2 ≠ "")
    (hfound2 : AuthenticationService.find_user_by_identifier byEmail byUsername
      identifier2 = some v) :
    (∀ u', (UsernamePasswordAuthStrategy.authenticate lookup now username email
        password).stored = some u' →
        u'.failed_login_attempts = u.failed_login_attempts)
    ∧ (∀ v', (AuthenticationService.authenticate_user byEmail byUsername now2
        identifier2 password2).stored = some v' →
        v'.login_attempts = v.login_attempts)
    ∧ (User.increment_login_attempts now u).failed_login_attempts =
        u.failed_login_attempts
    ∧ (User.reset_login_attempts now u).failed_login_attempts =
        u.failed_login_attempts
    ∧ (AuthenticationService.handle_failed_login now m d u).login_attempts =
        u.login_attempts
    ∧ (AuthenticationService.handle_successful_login now u).login_attempts =
        u.login_attempts
    ∧ (User.increment_login_attempts now
        { u with failed_login_attempts := k }).locked_until =
        (User.increment_login_attempts now u).locked_until
    ∧ (AuthenticationService.handle_failed_login now m d
        { u with login_attempts := k }).locked_until =
        (AuthenticationService.handle_failed_login now m d u).locked_until := by
  refine ⟨?_, ?_, ?_, ?_, ?_, ?_, ?_, ?_⟩
  · intro u' hst
    by_cases hl : u.is_locked now = true
    · rw [up_authenticate_locked lookup now username email password identifier pwd u
        hident hpwd hfound hl] at hst
      have : u = u' := Option.some.inj hst
      rw [← this]
    · have hl' : u.is_locked now = false := by
        cases hb : u.is_locked now
        · rfl
        · exact absurd hb hl
      cases hv : PasswordManager.verify_password pwd u.hashed_password with
      | error e =>
        rw [up_authenticate_verify_error lookup now username email password identifier
          pwd u e hident hpwd hfound hl' hv] at hst
        have : u = u' := Option.some.inj hst
        rw [← this]
      | ok b =>
        cases b with
        | false =>
          rw [up_authenticate_wrong_password lookup now username email password
            identifier pwd u hident hpwd hfound hl' hv] at hst
          have : User.increment_login_attempts now u = u' := Option.some.inj hst
          rw [← this]
          exact (increment_login_attempts_spec now u).2.1
        | true =>
          rw [up_authenticate_correct_password lookup now username email password
            identifier pwd u hident hpwd hfound hl' hv] at hst
          have : User.reset_login_attempts now u = u' := Option.some.inj hst
          rw [← this]
          exact (reset_login_attempts_spec now u).2.1
  · intro v' hst
    cases hcs : AuthenticationService.check_account_status now2 v with
    | some e =>
      rw [svc_authenticate_status_error byEmail byUsername now2 identifier2 password2
        v e hid2 hpw2 hfound2 hcs] at hst
      have : v = v' := Option.some.inj hst
      rw [← this]
    | none =>
      cases hv : PasswordManager.verify_password password2 v.hashed_password with
      | error e =>
        rw [svc_authenticate_verify_error byEmail byUsername now2 identifier2
          password2 v e hid2 hpw2 hfound2 hcs hv] at hst
        have : v = v' := Option.some.inj hst
        rw [← this]
      | ok b =>
        cases b with
        | false =>
          rw [svc_authenticate_wrong byEmail byUsername now2 identifier2 password2 v
            hid2 hpw2 hfound2 hcs hv] at hst
          have := Option.some.inj hst
          rw [← this]
          exact (handle_failed_login_spec now2 AuthenticationService.max_login_attempts
            AuthenticationService.lockout_duration_minutes v).2.1
        | true =>
          rw [svc_authenticate_correct byEmail byUsername now2 identifier2 password2 v
            hid2 hpw2 hfound2 hcs hv] at hst
          have := Option.some.inj hst
          rw [← this]
          exact (handle_successful_login_spec now2 v).2.1
  · exact (increment_login_attempts_spec now u).2.1
  · exact (reset_login_attempts_spec now u).2.1
  · exact (handle_failed_login_spec now m d u).2.1
  · exact (handle_successful_login_spec now u).2.1
  · by_cases h : u.login_attempts + 1 ≥ 5 <;>
      simp [User.increment_login_attempts, User.lock_account, h]
  · by_cases h : u.failed_login_attempts + 1 ≥ m <;>
      simp [AuthenticationService.handle_failed_login, h]

/-- A user with distinct values in the two counters, for the C10 witness. -/
def daveUser : User :=
  { baseUser with id := some "u5", username := "dave", email := "dave@example.com",
                  login_attempts := 7, failed_login_attempts := 2 }

/-- C10 witness: a failed strategy attempt for carol stores a record with
her `failed_login_attempts` unchanged, and a failed service attempt for dave
stores a record with his `login_attempts` unchanged. -/
theorem dual_lockout_counters_independent_witness :
    carolAfterFail.failed_login_attempts = almostLockedUser.failed_login_attempts
    ∧ (AuthenticationService.handle_failed_login 200
        AuthenticationService.max_login_attempts
        AuthenticationService.lockout_duration_minutes daveUser).login_attempts =
      daveUser.login_attempts := by
  have h := dual_lockout_counters_independent lookupCarol
    (fun i => if i = "dave@example.com" then some daveUser else none)
    (fun _ => none) 100 200 5 30 0
    (some "carol") none (some "wrong") "carol" "wrong" "dave@example.com" "bad"
    almostLockedUser daveUser rfl rfl (by decide) (by decide) (by decide) (by decide)
  exact ⟨h.1 carolAfterFail (by decide), h.2.1 (AuthenticationService.handle_failed_login
    200 AuthenticationService.max_login_attempts
    AuthenticationService.lockout_duration_minutes daveUser) (by decide)⟩
